import Mathlib

/-!
Verification development for the MISP database IOC extractor
(`misp_db_extractor.py`): a shallow embedding of the extraction-and-cache
pipeline (windowed delta query, row normalization, cache rotation/backup,
cache batch write, process exit behaviour) together with theorems about it.

Python dictionaries holding SQL values are embedded as association lists of
`String × Value`; machine integers are `Int`; fallible Python code (code that
can raise) is embedded as `Except String _`, where `.error` marks an
uncaught exception.
-/

/-- A SQL/Python cell value as it appears in a dictionary-shaped row:
an integer, a string, or `None`/SQL NULL. -/
inductive Value where
  | vInt (n : Int)
  | vStr (s : String)
  | vNull
deriving DecidableEq, Repr

open Value

/-- A dictionary-shaped row: association list from field name to value
(first binding wins on lookup, as in a Python dict with unique keys). -/
abbrev Row : Type := List (String × Value)

/-- Python truthiness of a cell value: `0`, `""` and `None` are falsy.
Embeds the `if row[k]` guards of the source. -/
def truthy : Value → Bool
  | vInt n => n != 0
  | vStr s => s != ""
  | vNull => false

/-- `k in row` for a Python dict. -/
def Row.hasKey (row : Row) (k : String) : Bool :=
  (List.lookup k row).isSome

/-- `row[k] = v` for a Python dict: replaces the value at every binding of
`k` (bindings are unique in a dict, so this is the dict update). -/
def Row.set (row : Row) (k : String) (v : Value) : Row :=
  row.map (fun p => if p.1 = k then (k, v) else p)

/-- Left-pads the decimal rendering of `n` with zeros to width `w`. -/
def padZ (w : Nat) (n : Nat) : String :=
  let s := toString n
  String.mk (List.replicate (w - s.length) '0') ++ s

/-- Civil date `(year, month, day)` from a count of days since 1970-01-01
(days-to-civil algorithm of the proleptic Gregorian calendar). Embeds the
calendar arithmetic behind `datetime.datetime.fromtimestamp`. -/
def civilFromDays (z0 : Int) : Int × Nat × Nat :=
  let z := z0 + 719468
  let era := z.fdiv 146097
  let doe := (z - era * 146097).toNat
  let yoe := (doe - doe / 1460 + doe / 36524 - doe / 146096) / 365
  let y := (yoe : Int) + era * 400
  let doy := doe - (365 * yoe + yoe / 4 - yoe / 100)
  let mp := (5 * doy + 2) / 153
  let d := doy - (153 * mp + 2) / 5 + 1
  let m := if mp < 10 then mp + 3 else mp - 9
  (if m ≤ 2 then y + 1 else y, m, d)

/-- `datetime.datetime.fromtimestamp(n).strftime("%Y-%m-%d %H:%M:%S")`:
epoch seconds to the fixed-format timestamp string. Local time is modelled
as UTC (the process's time zone setting is an external parameter; the spec
accepts the timezone-dependence, and every property proved here is
independent of the zone offset). -/
def fmtTimestamp (n : Int) : String :=
  let days := n.fdiv 86400
  let sod := (n - days * 86400).toNat
  let c := civilFromDays days
  padZ 4 c.1.toNat ++ "-" ++ padZ 2 c.2.1 ++ "-" ++ padZ 2 c.2.2 ++ " " ++
    padZ 2 (sod / 3600) ++ ":" ++ padZ 2 (sod % 3600 / 60) ++ ":" ++ padZ 2 (sod % 60)

/-- One timestamp-field step of the row normalizer (lines 186-192 of the
source): if the key is present and its value truthy, convert it with
`fromtimestamp(...).strftime(...)`; `fromtimestamp` of a non-integer raises
`TypeError`, embedded as `.error`. Absent, null, falsy-zero and
empty-string values are left untouched. -/
def normField (k : String) (row : Row) : Except String Row :=
  match List.lookup k row with
  | some v =>
      if truthy v then
        match v with
        | vInt n => .ok (row.set k (vStr (fmtTimestamp n)))
        | _ => .error "TypeError"
      else .ok row
  | none => .ok row

/-- The row normalizer of `fetch_recent_iocs` (lines 184-194): converts the
`event_timestamp` and then the `attribute_timestamp` field in place. -/
def normRow (row : Row) : Except String Row := do
  let r1 ← normField "event_timestamp" row
  normField "attribute_timestamp" r1

/-- One row of the source `events` table (the columns the query selects):
`id`, `uuid`, `info`, `date`, `timestamp` (epoch seconds). -/
structure EventRec where
  id : Int
  uuid : String
  info : String
  date : String
  timestamp : Int
deriving DecidableEq, Repr

/-- One row of the source `attributes` table (the columns the query
touches): `id`, `event_id` foreign key, `type`, `category`, `value1`,
`timestamp` (epoch seconds), nullable `comment`, `to_ids` flag. -/
structure AttrRec where
  id : Int
  event_id : Int
  type : String
  category : String
  value1 : String
  timestamp : Int
  comment : Option String
  to_ids : Int
deriving DecidableEq, Repr

/-- The queried state of the MISP relational source. -/
structure MispDb where
  events : List EventRec
  attributes : List AttrRec
deriving DecidableEq, Repr

/-- A source connection as `fetch_recent_iocs` sees it: a readiness flag
(`is_connected()`) over the source data. -/
structure Conn where
  isConnected : Bool
  db : MispDb
deriving Repr

/-- The dictionary row produced for one joined `(event, attribute)` pair by
the SELECT list of the query (lines 154-177): the twelve aliased columns,
with a NULL comment surfacing as SQL NULL. -/
def rawRowOf (e : EventRec) (a : AttrRec) : Row :=
  [("event_id", vInt e.id),
   ("event_uuid", vStr e.uuid),
   ("event_info", vStr e.info),
   ("event_date", vStr e.date),
   ("event_timestamp", vInt e.timestamp),
   ("attribute_id", vInt a.id),
   ("attribute_type", vStr a.type),
   ("attribute_category", vStr a.category),
   ("attribute_value", vStr a.value1),
   ("attribute_timestamp", vInt a.timestamp),
   ("attribute_comment", match a.comment with | some s => vStr s | none => vNull),
   ("attribute_to_ids", vInt a.to_ids)]

/-- The leading decimal digits of a string. -/
def digitsPrefix : List Char → List Char
  | [] => []
  | c :: cs => if c.isDigit then c :: digitsPrefix cs else []

/-- MySQL's numeric coercion of a string compared against an integer
column: the comparison is performed on numbers, the string being read as
its leading numeric prefix and the rest discarded as trailing garbage
(with a warning). A `'YYYY-MM-DD HH:MM:SS'` parameter therefore compares
as just the year: `'2024-10-11 00:00:00'` → 2024. -/
def mysqlStrToInt (s : String) : Int :=
  ((digitsPrefix s.toList).foldl (fun acc c => acc * 10 + (c.toNat - 48)) 0 : Nat)

/-- The WHERE clause of the delta query: `a.type IN (typeFilters)` AND
(`a.timestamp >= %s` OR `e.timestamp >= %s`), where `%s` is bound to the
`tsParam` string (line 174). The `timestamp` columns hold epoch
integers (the very values `fromtimestamp` is later applied to), so MySQL
coerces the bound string numerically and compares numbers. -/
def rowMatches (types : List String) (tsParam : String) (e : EventRec) (a : AttrRec) : Bool :=
  a.type ∈ types &&
    (mysqlStrToInt tsParam ≤ a.timestamp || mysqlStrToInt tsParam ≤ e.timestamp)

/-- Inserts a joined pair into a list sorted by attribute timestamp
descending, keeping it sorted (one step of the ORDER BY). -/
def insertDesc (x : EventRec × AttrRec) :
    List (EventRec × AttrRec) → List (EventRec × AttrRec)
  | [] => [x]
  | y :: ys =>
      if y.2.timestamp ≤ x.2.timestamp then x :: y :: ys
      else y :: insertDesc x ys

/-- `ORDER BY a.timestamp DESC`: sorts the joined pairs by attribute
timestamp, most recent first (insertion sort). -/
def sortDesc (l : List (EventRec × AttrRec)) : List (EventRec × AttrRec) :=
  l.foldr insertDesc []

/-- The delta query result (lines 154-181): events JOIN attributes on
`e.id = a.event_id`, filtered by the WHERE clause with the bound
timestamp-string parameter, ordered by `a.timestamp` descending. -/
def queryResult (db : MispDb) (types : List String) (tsParam : String) :
    List (EventRec × AttrRec) :=
  sortDesc (db.events.flatMap fun e =>
    (db.attributes.filter fun a =>
        a.event_id == e.id && rowMatches types tsParam e a).map
      fun a => (e, a))

/-- The result-processing loop of `fetch_recent_iocs` (lines 184-194):
normalize each fetched row in order; an exception while normalizing
escapes the loop (it is a `TypeError`, which `except Error` does not
catch), so the whole call fails. -/
def normLoop : List (EventRec × AttrRec) → Except String (List Row)
  | [] => .ok []
  | p :: ps => do
      let r ← normRow (rawRowOf p.1 p.2)
      let rest ← normLoop ps
      .ok (r :: rest)

/-- Result of `fetch_recent_iocs`: the returned list, plus whether the
query was built and executed (`cursor.execute` reached). -/
structure FetchResult where
  iocs : List Row
  queryRan : Bool
deriving DecidableEq, Repr

/-- `fetch_recent_iocs(connection, hours)` (lines 124-204). The connection
is `Option Conn` (`None` or a connection object); `types` is the
configured `IOC_TYPES` filter set; `now` is the wall clock in epoch
seconds. The cutoff `datetime.now() - timedelta(hours=hours)` is bound
into the query as the formatted STRING
`lookback_time.strftime("%Y-%m-%d %H:%M:%S")` (lines 149-150, 180) — not
as an epoch number — and is compared by MySQL against the integer epoch
`timestamp` columns under numeric coercion (see `rowMatches`).
`queryFails` injects a `mysql.connector.Error` at `cursor.execute`,
which the function catches, logs and swallows, returning the rows
gathered so far (none). -/
def fetch_recent_iocs (conn : Option Conn) (types : List String)
    (hours : Int) (now : Int) (queryFails : Bool) :
    Except String FetchResult :=
  match conn with
  | none => .ok ⟨[], false⟩
  | some c =>
      if !c.isConnected then .ok ⟨[], false⟩
      else if queryFails then .ok ⟨[], true⟩
      else do
        let timestampParam := fmtTimestamp (now - hours * 3600)
        let iocs ← normLoop (queryResult c.db types timestampParam)
        .ok ⟨iocs, true⟩

/-- Outcome of one `main()` run (lines 340-377): the process exit code,
which sinks were invoked (`save_to_json`, `save_to_cache_db`), how each
write fared, and the durable cache store the run leaves behind. -/
structure RunResult where
  exitCode : Nat
  snapshotAttempted : Bool
  snapshotOk : Bool
  cacheAttempted : Bool
  cacheStore : List Row
  cacheOk : Bool
deriving DecidableEq, Repr

/-- The local file system: paths to file contents (byte lists). -/
abbrev FS : Type := List (String × List Nat)

/-- The bytes at a path, if the path exists. -/
def fsGet (fs : FS) (p : String) : Option (List Nat) := List.lookup p fs

/-- `os.path.exists`. -/
def fsExists (fs : FS) (p : String) : Bool := (fsGet fs p).isSome

/-- Writes `bytes` at path `p`, overwriting an existing file or creating a
new one. -/
def fsSet (fs : FS) (p : String) (bytes : List Nat) : FS :=
  if fsExists fs p then fs.map (fun q => if q.1 = p then (p, bytes) else q)
  else fs ++ [(p, bytes)]

/-- `os.remove`. -/
def fsRemove (fs : FS) (p : String) : FS := fs.filter (fun q => q.1 ≠ p)

/-- `backup_cache_db(db_path, backup_path)` (lines 225-254): if the cache
file exists, `shutil.copy2` it onto the backup path, then `os.remove` the
original; returns `True` on success or when there was nothing to back up,
`False` if any step raised. `copyFails` / `removeFails` inject an I/O
failure at the corresponding call. -/
def backup_cache_db (fs : FS) (db_path backup_path : String)
    (copyFails removeFails : Bool) : FS × Bool :=
  if fsExists fs db_path then
    if copyFails then (fs, false)
    else
      let fs1 := fsSet fs backup_path ((fsGet fs db_path).getD [])
      if removeFails then (fs1, false)
      else (fsRemove fs1 db_path, true)
  else (fs, true)

/-- The column list of the `CREATE TABLE misp_iocs` statement
(lines 279-297). -/
def schemaCols : List String :=
  ["id", "event_id", "event_uuid", "event_info", "event_date",
   "event_timestamp", "attribute_id", "attribute_type", "attribute_category",
   "attribute_value", "attribute_timestamp", "attribute_comment",
   "attribute_to_ids", "import_time", "executive_summary"]

/-- The column list of the `INSERT INTO misp_iocs (...)` statement
(lines 308-313). -/
def insertCols : List String :=
  ["event_id", "event_uuid", "event_info", "event_date", "event_timestamp",
   "attribute_id", "attribute_type", "attribute_category", "attribute_value",
   "attribute_timestamp", "attribute_comment", "attribute_to_ids",
   "import_time"]

/-- `ioc.get(k)`: `None` (SQL NULL) when the key is absent. -/
def pyGet (ioc : Row) (k : String) : Value := (List.lookup k ioc).getD vNull

/-- `ioc.get(k, default)`. -/
def pyGetD (ioc : Row) (k : String) (dflt : Value) : Value :=
  (List.lookup k ioc).getD dflt

/-- The bound parameter tuple of the INSERT (lines 314-328), in statement
order; `current_time` is the run's wall-clock `import_time` stamp. -/
def insertVals (ioc : Row) (current_time : String) : List Value :=
  [pyGet ioc "event_id",
   pyGet ioc "event_uuid",
   pyGet ioc "event_info",
   pyGet ioc "event_date",
   pyGet ioc "event_timestamp",
   pyGet ioc "attribute_id",
   pyGet ioc "attribute_type",
   pyGet ioc "attribute_category",
   pyGet ioc "attribute_value",
   pyGet ioc "attribute_timestamp",
   pyGet ioc "attribute_comment",
   pyGetD ioc "attribute_to_ids" (vInt 0),
   vStr current_time]

/-- The row the INSERT stores, laid out over the full table schema: each
listed column receives its bound value positionally; every schema column
not named by the INSERT gets its default, SQL NULL (the `id` autokey is
assigned by the store and modelled as its pre-assignment default here). -/
def insertedRow (ioc : Row) (current_time : String) : Row :=
  schemaCols.map fun c =>
    (c, (List.lookup c (insertCols.zip (insertVals ioc current_time))).getD vNull)

/-- A sqlite connection as `sqlite3.connect` hands it out with the default
`isolation_level`: executing an INSERT opens (or continues) an implicit
transaction, so inserted rows sit in `pending` until `commit()` moves them
into the durable `committed` store; closing a connection without a commit
rolls the pending transaction back. -/
structure SqliteConn where
  committed : List Row
  pending : List Row
deriving DecidableEq, Repr

/-- `cursor.execute('INSERT ...')`: stages one row in the open
transaction. -/
def sqlExec (c : SqliteConn) (row : Row) : SqliteConn :=
  { c with pending := c.pending ++ [row] }

/-- `conn.commit()`: publishes the pending rows durably. -/
def sqlCommit (c : SqliteConn) : SqliteConn :=
  { committed := c.committed ++ c.pending, pending := [] }

/-- `conn.close()`: the durable store after closing; an uncommitted
transaction is rolled back, its rows discarded. -/
def sqlClose (c : SqliteConn) : List Row := c.committed

/-- The insert loop of `save_to_cache_db` (lines 304-328): executes one
INSERT per record until one raises (`failsAt` injects the failure);
returns the connection state and whether the whole batch succeeded. The
first failure breaks the loop: control jumps to `except`, skipping both
the remaining inserts and the `conn.commit()` at line 330. -/
def insertLoop (c : SqliteConn) (current_time : String) (failsAt : Row → Bool) :
    List Row → SqliteConn × Bool
  | [] => (c, true)
  | ioc :: rest =>
      if failsAt ioc then (c, false)
      else insertLoop (sqlExec c (insertedRow ioc current_time)) current_time failsAt rest

/-- The cache-write phase of `save_to_cache_db` (lines 273-337), from
`sqlite3.connect` through the `finally: conn.close()`: the batch is run
against the store `db0` (the rows already durable at the path); on a
fully successful batch `conn.commit()` runs before the close, otherwise
the close rolls the run's inserts back. Returns the durable store after
`conn.close()` and whether the batch succeeded. -/
def cacheWriteBatch (iocs : List Row) (db0 : List Row)
    (current_time : String) (failsAt : Row → Bool) : List Row × Bool :=
  let r := insertLoop ⟨db0, []⟩ current_time failsAt iocs
  if r.2 then (sqlClose (sqlCommit r.1), true)
  else (sqlClose r.1, false)

/-- `main()` (lines 340-377). `conn` is what `connect_to_db()` returned
(`None` on connection failure). On `None`, `sys.exit(1)` raises
`SystemExit`, which `except Exception` does not catch, so the process
exits 1 before any fetch or write. Otherwise the run proceeds and exits 0
on every path: an exception escaping `fetch_recent_iocs` is caught by the
blanket `except Exception` and only logged; `save_to_json` (lines
217-222) and `save_to_cache_db` (lines 273-337) catch their own failures
internally, so neither write's outcome reaches `main`'s control flow.
`snapshotFails` injects a snapshot write failure; `db0`, `current_time`
and `failsAt` parameterize the cache-write batch as in
`cacheWriteBatch`. -/
def mainRun (conn : Option Conn) (types : List String) (hours now : Int)
    (queryFails snapshotFails : Bool) (db0 : List Row)
    (current_time : String) (failsAt : Row → Bool) : RunResult :=
  match conn with
  | none => ⟨1, false, false, false, db0, false⟩
  | some c =>
      match fetch_recent_iocs (some c) types hours now queryFails with
      | .error _ => ⟨0, false, false, false, db0, false⟩
      | .ok fr =>
          if fr.iocs.isEmpty then ⟨0, false, false, false, db0, false⟩
          else
            let cw := cacheWriteBatch fr.iocs db0 current_time failsAt
            ⟨0, true, !snapshotFails, true, cw.1, cw.2⟩

/-! ## Helper lemmas -/

theorem insertLoop_committed (current_time : String) (failsAt : Row → Bool) :
    ∀ (l : List Row) (c : SqliteConn),
      (insertLoop c current_time failsAt l).1.committed = c.committed := by
  intro l
  induction l with
  | nil => intro c; rfl
  | cons ioc rest ih =>
      intro c
      unfold insertLoop
      by_cases h : failsAt ioc = true
      · simp [h]
      · simp only [Bool.not_eq_true] at h
        simp [h, ih, sqlExec]

theorem insertLoop_fails (current_time : String) (failsAt : Row → Bool) :
    ∀ (l : List Row) (c : SqliteConn), (∃ i ∈ l, failsAt i = true) →
      (insertLoop c current_time failsAt l).2 = false := by
  intro l
  induction l with
  | nil => intro c h; simp at h
  | cons ioc rest ih =>
      intro c h
      unfold insertLoop
      by_cases hf : failsAt ioc = true
      · simp [hf]
      · simp only [Bool.not_eq_true] at hf
        simp only [hf]
        apply ih
        rcases h with ⟨i, hi, hfi⟩
        rcases List.mem_cons.mp hi with rfl | hi'
        · rw [hf] at hfi; exact absurd hfi (by simp)
        · exact ⟨i, hi', hfi⟩

theorem lookup_set_map (l : List (String × List Nat)) (p : String) (b : List Nat) :
    List.lookup p (l.map fun q => if q.1 = p then (p, b) else q) =
      (List.lookup p l).map fun _ => b := by
  induction l with
  | nil => rfl
  | cons q rest ih =>
      obtain ⟨k, v⟩ := q
      by_cases hk : k = p
      · subst hk
        simp [List.lookup_cons, ih]
      · simp [List.lookup_cons, hk, beq_false_of_ne (Ne.symm hk), ih]

theorem lookup_append_none (l₁ l₂ : List (String × List Nat)) (p : String)
    (h : List.lookup p l₁ = none) :
    List.lookup p (l₁ ++ l₂) = List.lookup p l₂ := by
  induction l₁ with
  | nil => rfl
  | cons q rest ih =>
      obtain ⟨k, v⟩ := q
      rw [List.lookup_cons] at h
      rw [List.cons_append, List.lookup_cons]
      rcases hpk : (p == k) with _ | _
      · rw [hpk] at h
        exact ih h
      · rw [hpk] at h
        exact Option.noConfusion h

theorem fsGet_set_self (fs : FS) (p : String) (b : List Nat) :
    fsGet (fsSet fs p b) p = some b := by
  unfold fsSet
  by_cases h : fsExists fs p = true
  · rw [if_pos h]
    unfold fsExists fsGet at h
    obtain ⟨b', hb'⟩ := Option.isSome_iff_exists.mp h
    unfold fsGet
    rw [lookup_set_map, hb']
    rfl
  · rw [if_neg h]
    unfold fsExists fsGet at h
    unfold fsGet
    rw [lookup_append_none _ _ _ (Option.not_isSome_iff_eq_none.mp h)]
    simp [List.lookup_cons]

theorem fsGet_remove_self (fs : FS) (p : String) :
    fsGet (fsRemove fs p) p = none := by
  unfold fsRemove fsGet
  induction fs with
  | nil => rfl
  | cons q rest ih =>
      obtain ⟨k, v⟩ := q
      by_cases hk : k = p
      · subst hk
        simpa using ih
      · rw [List.filter_cons, if_pos (by simpa using hk), List.lookup_cons,
          beq_false_of_ne (Ne.symm hk)]
        exact ih

theorem fsGet_remove_ne (fs : FS) (p q : String) (h : q ≠ p) :
    fsGet (fsRemove fs p) q = fsGet fs q := by
  unfold fsRemove fsGet
  induction fs with
  | nil => rfl
  | cons r rest ih =>
      obtain ⟨k, v⟩ := r
      by_cases hk : k = p
      · subst hk
        rw [List.filter_cons, if_neg (by simp), List.lookup_cons,
          beq_false_of_ne h]
        exact ih
      · rw [List.filter_cons, if_pos (by simpa using hk), List.lookup_cons,
          List.lookup_cons]
        rcases hb : (q == k) with _ | _
        · exact ih
        · rfl

/-- The timestamp slot of a row is not a string (the raw shape coming out
of the source: epoch integer, NULL, or absent key). -/
def noStrB : Option Value → Bool
  | some (vStr _) => false
  | _ => true

/-- The timestamp slot is absent or falsy (`None`, `0`, `""`), so the
normalizer's `if row[k]:` guard skips it. -/
def falsyB : Option Value → Bool
  | none => true
  | some v => !truthy v

theorem lookup_rowSet (row : Row) (k : String) (v : Value) :
    List.lookup k (Row.set row k v) = (List.lookup k row).map fun _ => v := by
  induction row with
  | nil => rfl
  | cons q rest ih =>
      obtain ⟨k', v'⟩ := q
      by_cases hk : k' = k
      · subst hk
        simp [Row.set, List.lookup_cons, ih]
      · simp [Row.set, List.lookup_cons, hk, beq_false_of_ne (Ne.symm hk)] at ih ⊢
        exact ih

theorem lookup_rowSet_ne (row : Row) (k : String) (v : Value) (k' : String)
    (h : k' ≠ k) :
    List.lookup k' (Row.set row k v) = List.lookup k' row := by
  induction row with
  | nil => rfl
  | cons q rest ih =>
      obtain ⟨k0, v0⟩ := q
      by_cases hk : k0 = k
      · subst hk
        simp only [Row.set, List.map_cons, if_pos rfl, eq_self_iff_true, if_true,
          List.lookup_cons, beq_false_of_ne h]
        exact ih
      · simp only [Row.set, List.map_cons, if_neg hk, List.lookup_cons] at ih ⊢
        rcases hb : (k' == k0) with _ | _
        · exact ih
        · rfl

theorem normField_of_falsy (k : String) (row : Row)
    (h : falsyB (List.lookup k row) = true) : normField k row = .ok row := by
  unfold normField
  cases hl : List.lookup k row with
  | none => rfl
  | some v =>
      rw [hl] at h
      simp only [falsyB, Bool.not_eq_true'] at h
      simp [h]

theorem normField_int (k : String) (row : Row) (n : Int) (hn : n ≠ 0)
    (hl : List.lookup k row = some (vInt n)) :
    normField k row = .ok (Row.set row k (vStr (fmtTimestamp n))) := by
  unfold normField
  rw [hl]
  simp [truthy, hn]

theorem normField_str (k : String) (row : Row) (s : String) (hs : s ≠ "")
    (hl : List.lookup k row = some (vStr s)) :
    normField k row = .error "TypeError" := by
  unfold normField
  rw [hl]
  simp [truthy, hs]

theorem normField_spec (k : String) (row : Row)
    (h : noStrB (List.lookup k row) = true) :
    ∃ r', normField k row = .ok r' ∧
      (∀ n : Int, n ≠ 0 → List.lookup k row = some (vInt n) →
        List.lookup k r' = some (vStr (fmtTimestamp n))) ∧
      (falsyB (List.lookup k row) = true → r' = row) ∧
      (∀ k', k' ≠ k → List.lookup k' r' = List.lookup k' row) := by
  cases hl : List.lookup k row with
  | none =>
      exact ⟨row, normField_of_falsy k row (by rw [hl]; rfl),
        fun n _ hn => Option.noConfusion hn,
        fun _ => rfl, fun _ _ => rfl⟩
  | some v =>
      cases v with
      | vInt n =>
          by_cases hn : n = 0
          · subst hn
            exact ⟨row, normField_of_falsy k row (by rw [hl]; rfl),
              fun n' hn' hsome => by
                injection hsome with hv
                injection hv with hv'
                exact absurd hv'.symm hn',
              fun _ => rfl, fun _ _ => rfl⟩
          · refine ⟨Row.set row k (vStr (fmtTimestamp n)),
              normField_int k row n hn hl, fun n' hn' hsome => ?_, fun hf => ?_,
              fun k' hk' => lookup_rowSet_ne row k _ k' hk'⟩
            · injection hsome with hv
              injection hv with hv'
              subst hv'
              rw [lookup_rowSet, hl]
              rfl
            · simp [falsyB, truthy, hn] at hf
      | vStr s =>
          rw [hl] at h
          exact absurd h (by simp [noStrB])
      | vNull =>
          exact ⟨row, normField_of_falsy k row (by rw [hl]; rfl),
            fun n _ hn => by injection hn with hv; exact Value.noConfusion hv,
            fun _ => rfl, fun _ _ => rfl⟩

/-- The eleven INSERT fields read with plain `ioc.get(k)` (default
`None`), i.e. every bound column except `attribute_to_ids` and the
writer-supplied `import_time`. -/
def nullableInsertFields : List String :=
  ["event_id", "event_uuid", "event_info", "event_date", "event_timestamp",
   "attribute_id", "attribute_type", "attribute_category", "attribute_value",
   "attribute_timestamp", "attribute_comment"]

/-- The row inside a successful normalization result (the empty row for a
raised exception). -/
def okRow : Except String Row → Row
  | .ok r => r
  | .error _ => []

theorem mem_insertDesc (x y : EventRec × AttrRec) (l : List (EventRec × AttrRec)) :
    y ∈ insertDesc x l ↔ y = x ∨ y ∈ l := by
  induction l with
  | nil => simp [insertDesc]
  | cons z zs ih =>
      unfold insertDesc
      by_cases h : z.2.timestamp ≤ x.2.timestamp
      · simp [h]
      · simp [h, ih]
        tauto

theorem mem_sortDesc (l : List (EventRec × AttrRec)) (y : EventRec × AttrRec) :
    y ∈ sortDesc l ↔ y ∈ l := by
  unfold sortDesc
  induction l with
  | nil => simp
  | cons x xs ih => simp [List.foldr, mem_insertDesc, ih]

theorem normLoop_mem (l : List (EventRec × AttrRec)) (out : List Row)
    (h : normLoop l = .ok out) :
    ∀ r ∈ out, ∃ p ∈ l, normRow (rawRowOf p.1 p.2) = .ok r := by
  induction l generalizing out with
  | nil =>
      have h' : (Except.ok [] : Except String (List Row)) = .ok out := h
      injection h' with h''
      subst h''
      simp
  | cons p ps ih =>
      unfold normLoop at h
      cases hn : normRow (rawRowOf p.1 p.2) with
      | error e =>
          rw [hn] at h
          exact Except.noConfusion h
      | ok r =>
          rw [hn] at h
          cases hl : normLoop ps with
          | error e =>
              rw [hl] at h
              exact Except.noConfusion h
          | ok rest =>
              rw [hl] at h
              have h' : (Except.ok (r :: rest) : Except String (List Row)) = .ok out := h
              injection h' with h''
              subst h''
              intro y hy
              rcases List.mem_cons.mp hy with rfl | hy'
              · exact ⟨p, List.mem_cons_self p ps, hn⟩
              · obtain ⟨q, hq, hqn⟩ := ih rest hl y hy'
                exact ⟨q, List.mem_cons_of_mem p hq, hqn⟩

theorem queryResult_mem (db : MispDb) (types : List String) (tsParam : String)
    (p : EventRec × AttrRec) (h : p ∈ queryResult db types tsParam) :
    p.1 ∈ db.events ∧ p.2 ∈ db.attributes ∧ p.2.event_id = p.1.id ∧
      (mysqlStrToInt tsParam ≤ p.2.timestamp ∨
        mysqlStrToInt tsParam ≤ p.1.timestamp) := by
  unfold queryResult at h
  rw [mem_sortDesc] at h
  rw [List.mem_flatMap] at h
  obtain ⟨e, he, hp⟩ := h
  rw [List.mem_map] at hp
  obtain ⟨a, ha, rfl⟩ := hp
  rw [List.mem_filter] at ha
  obtain ⟨ha1, ha2⟩ := ha
  simp only [rowMatches, Bool.and_eq_true, beq_iff_eq, decide_eq_true_eq,
    Bool.or_eq_true, List.elem_eq_mem] at ha2
  exact ⟨he, ha1, ha2.1, ha2.2.2⟩

/-! ## Claim theorems -/

/-- C10: called with a `None` connection or one whose `is_connected()` is
false, `fetch_recent_iocs` returns the empty list without building or
executing any query and without raising. -/
theorem fetch_disconnected (types : List String) (hours now : Int)
    (queryFails : Bool) (c : Conn) (h : c.isConnected = false) :
    fetch_recent_iocs none types hours now queryFails = .ok ⟨[], false⟩ ∧
    fetch_recent_iocs (some c) types hours now queryFails = .ok ⟨[], false⟩ := by
  refine ⟨rfl, ?_⟩
  simp [fetch_recent_iocs, h]

/-- Witness for C10 at a concrete disconnected connection. -/
theorem fetch_disconnected_witness :
    fetch_recent_iocs none ["domain"] 24 1728691200 false = .ok ⟨[], false⟩ ∧
    fetch_recent_iocs (some ⟨false, ⟨[], []⟩⟩) ["domain"] 24 1728691200 false =
      .ok ⟨[], false⟩ :=
  fetch_disconnected ["domain"] 24 1728691200 false ⟨false, ⟨[], []⟩⟩ rfl

/-- C3: a query-execution failure inside `fetch_recent_iocs` is caught
and swallowed: the call returns the empty sequence, and the run is not
escalated to a fatal failure — `main` continues and the process exits
zero, whatever the state of the later write stages. -/
theorem fetch_query_failure (c : Conn) (types : List String) (hours now : Int)
    (snapshotFails : Bool) (db0 : List Row) (current_time : String)
    (failsAt : Row → Bool) (h : c.isConnected = true) :
    fetch_recent_iocs (some c) types hours now true = .ok ⟨[], true⟩ ∧
    (mainRun (some c) types hours now true snapshotFails db0 current_time
        failsAt).exitCode = 0 := by
  have hf : fetch_recent_iocs (some c) types hours now true = .ok ⟨[], true⟩ := by
    simp [fetch_recent_iocs, h]
  exact ⟨hf, by simp [mainRun, hf]⟩

/-- Witness for C3 at a concrete connected source. -/
theorem fetch_query_failure_witness :
    fetch_recent_iocs (some ⟨true, ⟨[], []⟩⟩) ["domain"] 24 1728691200 true =
      .ok ⟨[], true⟩ ∧
    (mainRun (some ⟨true, ⟨[], []⟩⟩) ["domain"] 24 1728691200 true false []
        "t" (fun _ => false)).exitCode = 0 :=
  fetch_query_failure ⟨true, ⟨[], []⟩⟩ ["domain"] 24 1728691200 false [] "t"
    (fun _ => false) rfl

/-- C5: the process exits non-zero exactly when the source connection
could not be established, and in that fatal case neither sink is invoked
and the cache store is untouched; on every connected run — zero records,
query failure, snapshot write failure, or cache write failure included —
the exit code is zero. -/
theorem main_exit_spec (conn : Option Conn) (types : List String)
    (hours now : Int) (queryFails snapshotFails : Bool) (db0 : List Row)
    (current_time : String) (failsAt : Row → Bool) :
    ((mainRun conn types hours now queryFails snapshotFails db0 current_time
        failsAt).exitCode ≠ 0 ↔ conn = none) ∧
    (conn = none →
      mainRun conn types hours now queryFails snapshotFails db0 current_time
          failsAt = ⟨1, false, false, false, db0, false⟩) := by
  cases conn with
  | none => exact ⟨by simp [mainRun], fun _ => rfl⟩
  | some c =>
      refine ⟨?_, by simp⟩
      simp only [mainRun]
      cases hf : fetch_recent_iocs (some c) types hours now queryFails with
      | error e => simp
      | ok fr => by_cases h : fr.iocs.isEmpty <;> simp [h]

/-- C8: the cache schema declares an `executive_summary` column, and the
INSERT never names it, so every row the writer stores carries SQL NULL
there. -/
theorem cache_executive_summary_empty (ioc : Row) (current_time : String) :
    "executive_summary" ∈ schemaCols ∧
    List.lookup "executive_summary" (insertedRow ioc current_time) =
      some vNull := by
  exact ⟨by decide, rfl⟩

/-- C9: a record lacking `attribute_to_ids` is stored with that column 0
(the `ioc.get('attribute_to_ids', 0)` default), while any other absent
bound field is stored as SQL NULL (`ioc.get(k)` defaults to `None`). -/
theorem cache_absent_field_defaults (ioc : Row) (current_time : String) :
    (List.lookup "attribute_to_ids" ioc = none →
      List.lookup "attribute_to_ids" (insertedRow ioc current_time) =
        some (vInt 0)) ∧
    ∀ f ∈ nullableInsertFields, List.lookup f ioc = none →
      List.lookup f (insertedRow ioc current_time) = some vNull := by
  constructor
  · intro h
    simp [insertedRow, schemaCols, insertCols, insertVals, pyGet, pyGetD,
      List.lookup, h]
  · intro f hf h
    simp only [nullableInsertFields] at hf
    fin_cases hf <;>
      simp [insertedRow, schemaCols, insertCols, insertVals, pyGet, pyGetD,
        List.lookup, h]

/-- C1: code bug. The claim (and the program's own docstring, "extracts
IOCs from the last 24 hours") requires every returned record to have its
attribute or parent-event modification time at or after
`now - lookbackHours`. But the code binds the cutoff as the formatted
string `'YYYY-MM-DD HH:MM:SS'` against integer epoch `timestamp` columns
— the same values it then feeds to `fromtimestamp` — so MySQL coerces
the string to its leading digits (the year) and the filter degenerates
to `epoch >= year`. Evaluated here at a concrete failing input: queried
at `now` = 1728691200 (2024-10-12 00:00:00) with a 24-hour lookback, the
bound parameter is `"2024-10-11 00:00:00"`, coerced to 2024, and a
record whose attribute AND event timestamps are both 86400
(1970-01-02, strictly older than the cutoff epoch 1728604800) is
returned anyway. -/
theorem fetch_window_bug :
    fmtTimestamp (1728691200 - 24 * 3600) = "2024-10-11 00:00:00" ∧
    mysqlStrToInt "2024-10-11 00:00:00" = 2024 ∧
    fetch_recent_iocs
      (some ⟨true, ⟨[⟨1, "u1", "i1", "1970-01-02", 86400⟩],
        [⟨10, 1, "domain", "Network activity", "example.com", 86400, none, 1⟩]⟩⟩)
      ["domain"] 24 1728691200 false =
      .ok ⟨[[("event_id", vInt 1), ("event_uuid", vStr "u1"),
             ("event_info", vStr "i1"), ("event_date", vStr "1970-01-02"),
             ("event_timestamp", vStr "1970-01-02 00:00:00"),
             ("attribute_id", vInt 10), ("attribute_type", vStr "domain"),
             ("attribute_category", vStr "Network activity"),
             ("attribute_value", vStr "example.com"),
             ("attribute_timestamp", vStr "1970-01-02 00:00:00"),
             ("attribute_comment", vNull), ("attribute_to_ids", vInt 1)]], true⟩ ∧
    (86400 : Int) < 1728691200 - 24 * 3600 :=
  ⟨rfl, rfl, rfl, by decide⟩

/-- Counterexample to C4 as stated: normalization is not idempotent.
Normalizing a row with an integer `event_timestamp` yields a string
there; normalizing that result again passes the truthiness guard and
feeds the string to `fromtimestamp`, which raises `TypeError` — so
`normalize (normalize row)` is a crash while `normalize row` succeeded. -/
theorem normRow_idem_cex :
    normRow [("event_timestamp", vInt 86400)] =
      .ok [("event_timestamp", vStr "1970-01-02 00:00:00")] ∧
    (normRow [("event_timestamp", vInt 86400)] >>= normRow) =
      .error "TypeError" :=
  ⟨rfl, rfl⟩

/-- C4 (amended): normalization is idempotent only on rows whose
timestamp fields are absent or falsy (`None`, `0`, `""`) — there it is
the identity, so re-running it neither crashes nor double-converts —
while re-normalizing a row whose `event_timestamp` already holds a
non-empty string (e.g. an already-normalized record) raises `TypeError`
instead of converting a second time. -/
theorem normRow_idem (row : Row) :
    (falsyB (List.lookup "event_timestamp" row) = true →
      falsyB (List.lookup "attribute_timestamp" row) = true →
      normRow row = .ok row ∧ (normRow row >>= normRow) = normRow row) ∧
    (∀ s, s ≠ "" → List.lookup "event_timestamp" row = some (vStr s) →
      normRow row = .error "TypeError") := by
  constructor
  · intro he ha
    have h1 : normField "event_timestamp" row = .ok row :=
      normField_of_falsy _ _ he
    have h2 : normField "attribute_timestamp" row = .ok row :=
      normField_of_falsy _ _ ha
    have hr : normRow row = .ok row := by
      unfold normRow
      rw [h1]
      exact h2
    refine ⟨hr, ?_⟩
    rw [hr]
    exact hr
  · intro s hs hl
    unfold normRow
    rw [normField_str "event_timestamp" row s hs hl]
    rfl

/-- Witness for C4 (amended): a null-timestamp row is a fixed point,
and re-normalizing a converted string timestamp raises. -/
theorem normRow_idem_witness :
    (normRow [("event_timestamp", vNull), ("attribute_timestamp", vNull)] =
      .ok [("event_timestamp", vNull), ("attribute_timestamp", vNull)]) ∧
    normRow [("event_timestamp", vStr "1970-01-02 00:00:00")] =
      .error "TypeError" :=
  ⟨((normRow_idem [("event_timestamp", vNull), ("attribute_timestamp", vNull)]).1
      rfl rfl).1,
   (normRow_idem [("event_timestamp", vStr "1970-01-02 00:00:00")]).2
      "1970-01-02 00:00:00" (by decide) rfl⟩

/-- Counterexample to C7 as stated: a raw row whose `event_timestamp` is
the epoch integer 0 is NOT converted to a timestamp string — Python's
truthiness guard `if row['event_timestamp']:` is false at 0, so the field
stays the integer 0, not the string `fmtTimestamp 0`. -/
theorem normRow_zero_epoch_cex :
    List.lookup "event_timestamp"
        (okRow (normRow (rawRowOf ⟨1, "u1", "i1", "2024-01-01", 0⟩
          ⟨2, 1, "domain", "Net", "example.com", 50, none, 1⟩))) =
      some (vInt 0) ∧
    some (vInt 0) ≠ some (vStr (fmtTimestamp 0)) :=
  ⟨rfl, by decide⟩

/-- C7 (amended): on a raw-shaped row (timestamp slots integer, null or
absent — never strings), normalization succeeds and converts each
NONZERO epoch-integer `event_timestamp`/`attribute_timestamp` to the
fixed-format `YYYY-MM-DD HH:MM:SS` local-time string, leaves a timestamp
field unchanged when it is absent, null or zero, and passes every other
field through unchanged. -/
theorem normRow_raw_spec (row : Row)
    (he : noStrB (List.lookup "event_timestamp" row) = true)
    (ha : noStrB (List.lookup "attribute_timestamp" row) = true) :
    ∃ r', normRow row = .ok r' ∧
      (∀ n : Int, n ≠ 0 → List.lookup "event_timestamp" row = some (vInt n) →
        List.lookup "event_timestamp" r' = some (vStr (fmtTimestamp n))) ∧
      (∀ n : Int, n ≠ 0 → List.lookup "attribute_timestamp" row = some (vInt n) →
        List.lookup "attribute_timestamp" r' = some (vStr (fmtTimestamp n))) ∧
      (falsyB (List.lookup "event_timestamp" row) = true →
        List.lookup "event_timestamp" r' = List.lookup "event_timestamp" row) ∧
      (falsyB (List.lookup "attribute_timestamp" row) = true →
        List.lookup "attribute_timestamp" r' =
          List.lookup "attribute_timestamp" row) ∧
      (∀ k, k ≠ "event_timestamp" → k ≠ "attribute_timestamp" →
        List.lookup k r' = List.lookup k row) := by
  obtain ⟨r1, h1ok, h1conv, h1keep, h1other⟩ :=
    normField_spec "event_timestamp" row he
  have ha1 : List.lookup "attribute_timestamp" r1 =
      List.lookup "attribute_timestamp" row := h1other _ (by decide)
  obtain ⟨r2, h2ok, h2conv, h2keep, h2other⟩ :=
    normField_spec "attribute_timestamp" r1 (by rw [ha1]; exact ha)
  refine ⟨r2, ?_, ?_, ?_, ?_, ?_, ?_⟩
  · unfold normRow
    rw [h1ok]
    exact h2ok
  · intro n hn hl
    rw [h2other _ (by decide)]
    exact h1conv n hn hl
  · intro n hn hl
    exact h2conv n hn (by rw [ha1]; exact hl)
  · intro hf
    rw [h2other _ (by decide), h1keep hf]
  · intro hf
    rw [h2keep (by rw [ha1]; exact hf), ha1]
  · intro k hk1 hk2
    rw [h2other _ hk2, h1other _ hk1]

/-- Witness for C7 (amended) at a concrete raw row with one nonzero and
one zero epoch timestamp. -/
theorem normRow_raw_spec_witness :
    ∃ r', normRow (rawRowOf ⟨1, "u1", "i1", "2024-01-01", 0⟩
        ⟨2, 1, "domain", "Net", "example.com", 50, none, 1⟩) = .ok r' ∧
      (∀ n : Int, n ≠ 0 →
        List.lookup "event_timestamp" (rawRowOf ⟨1, "u1", "i1", "2024-01-01", 0⟩
          ⟨2, 1, "domain", "Net", "example.com", 50, none, 1⟩) = some (vInt n) →
        List.lookup "event_timestamp" r' = some (vStr (fmtTimestamp n))) ∧
      (∀ n : Int, n ≠ 0 →
        List.lookup "attribute_timestamp" (rawRowOf ⟨1, "u1", "i1", "2024-01-01", 0⟩
          ⟨2, 1, "domain", "Net", "example.com", 50, none, 1⟩) = some (vInt n) →
        List.lookup "attribute_timestamp" r' = some (vStr (fmtTimestamp n))) ∧
      (falsyB (List.lookup "event_timestamp"
          (rawRowOf ⟨1, "u1", "i1", "2024-01-01", 0⟩
            ⟨2, 1, "domain", "Net", "example.com", 50, none, 1⟩)) = true →
        List.lookup "event_timestamp" r' =
          List.lookup "event_timestamp" (rawRowOf ⟨1, "u1", "i1", "2024-01-01", 0⟩
            ⟨2, 1, "domain", "Net", "example.com", 50, none, 1⟩)) ∧
      (falsyB (List.lookup "attribute_timestamp"
          (rawRowOf ⟨1, "u1", "i1", "2024-01-01", 0⟩
            ⟨2, 1, "domain", "Net", "example.com", 50, none, 1⟩)) = true →
        List.lookup "attribute_timestamp" r' =
          List.lookup "attribute_timestamp"
            (rawRowOf ⟨1, "u1", "i1", "2024-01-01", 0⟩
              ⟨2, 1, "domain", "Net", "example.com", 50, none, 1⟩)) ∧
      (∀ k, k ≠ "event_timestamp" → k ≠ "attribute_timestamp" →
        List.lookup k r' =
          List.lookup k (rawRowOf ⟨1, "u1", "i1", "2024-01-01", 0⟩
            ⟨2, 1, "domain", "Net", "example.com", 50, none, 1⟩)) :=
  normRow_raw_spec _ rfl rfl

/-- Witness for C9 at the empty record. -/
theorem cache_absent_field_defaults_witness :
    List.lookup "attribute_to_ids" (insertedRow [] "t") = some (vInt 0) ∧
    List.lookup "event_uuid" (insertedRow [] "t") = some vNull :=
  ⟨(cache_absent_field_defaults [] "t").1 rfl,
   (cache_absent_field_defaults [] "t").2 "event_uuid" (by decide) rfl⟩

/-- Counterexample to C2 as stated: the batch `[r, []]` whose second
record fails to insert (it lacks `event_id`) aborts mid-batch after the
first record was successfully inserted, yet the durable store afterwards
is empty — the already-inserted row did NOT remain persisted, because the
skipped `conn.commit()` means `conn.close()` rolls the run's open
transaction back. -/
theorem cache_partial_batch_cex :
    (fun r => !(Row.hasKey r "event_id")) [("event_id", vInt 1)] = false ∧
    (fun r => !(Row.hasKey r "event_id")) ([] : Row) = true ∧
    cacheWriteBatch [[("event_id", vInt 1)], ([] : Row)] [] "t"
      (fun r => !(Row.hasKey r "event_id")) = ([], false) :=
  ⟨rfl, rfl, rfl⟩

/-- C2 (amended): a mid-batch insert failure aborts the remaining inserts
of the run's batch, and the rows already inserted during that run are
rolled back, not persisted: `conn.commit()` is only reached after a fully
successful batch, so the durable cache store is left exactly as it was
before the run. -/
theorem cache_partial_batch_aborts (iocs db0 : List Row)
    (current_time : String) (failsAt : Row → Bool)
    (h : ∃ i ∈ iocs, failsAt i = true) :
    cacheWriteBatch iocs db0 current_time failsAt = (db0, false) := by
  unfold cacheWriteBatch
  have h2 := insertLoop_fails current_time failsAt iocs ⟨db0, []⟩ h
  simp [h2, sqlClose, insertLoop_committed]

/-- Witness for C2 (amended) at a concrete two-record batch. -/
theorem cache_partial_batch_aborts_witness :
    cacheWriteBatch [[("event_id", vInt 1)], ([] : Row)]
      [[("event_id", vInt 7)]] "t"
      (fun r => !(Row.hasKey r "event_id")) = ([[("event_id", vInt 7)]], false) :=
  cache_partial_batch_aborts _ _ "t" _ (by decide)

/-- C6: rotation postcondition of `backup_cache_db`. With no cache file
present, rotation is a success no-op leaving the file system (hence the
backup file) untouched; with a cache file present, a successful rotation
leaves the backup path holding exactly the cache file's pre-rotation
bytes and removes the cache path; and with a cache file present, an I/O
failure injected at the copy or at the delete makes rotation report
failure. -/
theorem backup_cache_db_spec (fs : FS) (db_path backup_path : String)
    (copyFails removeFails : Bool) (hne : db_path ≠ backup_path) :
    (fsExists fs db_path = false →
      backup_cache_db fs db_path backup_path copyFails removeFails = (fs, true)) ∧
    (fsExists fs db_path = true →
      (backup_cache_db fs db_path backup_path copyFails removeFails).2 = true →
      fsGet (backup_cache_db fs db_path backup_path copyFails removeFails).1
          backup_path = fsGet fs db_path ∧
      fsExists (backup_cache_db fs db_path backup_path copyFails removeFails).1
          db_path = false) ∧
    (fsExists fs db_path = true → (copyFails = true ∨ removeFails = true) →
      (backup_cache_db fs db_path backup_path copyFails removeFails).2 = false) := by
  refine ⟨fun h => by simp [backup_cache_db, h], fun h hs => ?_, fun h hf => ?_⟩
  · rcases hcf : copyFails with _ | _
    · rcases hrf : removeFails with _ | _
      · obtain ⟨b, hb⟩ := Option.isSome_iff_exists.mp (by simpa [fsExists] using h)
        simp only [backup_cache_db, h, hcf, hrf, if_true, if_false, Bool.false_eq_true]
        constructor
        · rw [fsGet_remove_ne _ _ _ (Ne.symm hne), hb]
          simp [fsGet_set_self, hb]
        · simp [fsExists, fsGet_remove_self]
      · simp [backup_cache_db, h, hcf, hrf] at hs
    · simp [backup_cache_db, h, hcf] at hs
  · rcases hcf : copyFails with _ | _
    · rcases hrf : removeFails with _ | _
      · rcases hf with hf | hf
        · rw [hcf] at hf; exact absurd hf (by simp)
        · rw [hrf] at hf; exact absurd hf (by simp)
      · simp [backup_cache_db, h, hcf, hrf]
    · simp [backup_cache_db, h, hcf]

/-- Witness for C6 at a concrete two-file file system. -/
theorem backup_cache_db_spec_witness :
    backup_cache_db [("other", [9])] "ioc_cache.db" "ioc_cache_yesterday.db"
      false false = ([("other", [9])], true) ∧
    (fsGet (backup_cache_db [("ioc_cache.db", [1, 2])] "ioc_cache.db"
        "ioc_cache_yesterday.db" false false).1 "ioc_cache_yesterday.db" =
      some [1, 2]) ∧
    (backup_cache_db [("ioc_cache.db", [1, 2])] "ioc_cache.db"
        "ioc_cache_yesterday.db" true false).2 = false := by
  refine ⟨(backup_cache_db_spec _ _ _ _ _ (by decide)).1 (by decide), ?_, ?_⟩
  · have := ((backup_cache_db_spec [("ioc_cache.db", [1, 2])] "ioc_cache.db"
      "ioc_cache_yesterday.db" false false (by decide)).2.1 (by decide) rfl).1
    rw [this]; rfl
  · exact (backup_cache_db_spec [("ioc_cache.db", [1, 2])] "ioc_cache.db"
      "ioc_cache_yesterday.db" true false (by decide)).2.2 (by decide) (Or.inl rfl)




